import Mathlib

/-!
Shallow embedding of the media_manager repository (Rust, iced GUI application).

The repository holds three revisions of the media-location logic:

* src/components/media_location.rs — the newest revision (exiftool batch
  extraction); embedded in namespace MediaManager.
* src/media_location.rs — the middle revision; its MediaLocationInfo::new and
  its scan have the same shape as the newest revision (same branches, same
  assignments), so the MediaManager definitions cover it as well.
* src/main.rs, mod media_info — the oldest revision, including the State /
  update application loop; embedded in namespace MediaManager.MediaInfo.
* src/persistence.rs — State::save / State::load.

External effects (the OS filesystem, the exiftool subprocess) enter the
embedding as explicit parameters: a FileSystem record of OS responses, a
directory listing, and the response of one json_batch invocation.  A Rust
panic (.unwrap() or .expect() on an error value, or a Vec index out of
bounds) is modelled by the value none of an Option-typed result.
-/

namespace MediaManager

/-- Kind of a filesystem object; also the result of DirEntry::file_type
(is_file holds exactly for the file constructor; dir and other cover
directories, sockets and the rest). -/
inductive FSNode
  | file
  | dir
  | other
deriving DecidableEq

/-- OS responses observed by MediaLocationInfo::new: std canonicalize
(realpath — it succeeds only when the referent of the path exists, returning
the canonical path), Path::try_exists (the Except.error case models a probe
that cannot determine existence due to permissions), and the node found at a
canonical path (backing Path::is_dir). -/
structure FileSystem where
  canon : String → Option String
  probe : String → Except Unit Bool
  node : String → Option FSNode

/-- MediaPathError (all three revisions declare the same enum). -/
inductive MediaPathError
  | noError
  | invalidPath
  | pathDoesNotExist
  | noPermission
  | notADirectory
deriving DecidableEq

deriving instance DecidableEq for Except

/-- One DirEntry as produced by read_dir: its file name, its full path, and
the response of its (asynchronous) file_type probe.  Err models an
io failure of the probe. -/
structure RawEntry where
  file_name : String
  path : String
  file_type : Except Unit FSNode
deriving DecidableEq

/-- One record of the exiftool json_batch response: the fields of the JSON
object (looked up by Value::get) and its rendered text (Value::to_string,
stored into the data field on debug builds). -/
structure Json where
  fields : List (String × String)
  raw : String
deriving DecidableEq

/-- Value::get on a JSON object: field lookup by key. -/
def Json.get (j : Json) (key : String) : Option String :=
  j.fields.lookup key

/-- ScannedMedia (components/media_location.rs, lines 91-96). -/
structure ScannedMedia where
  entry : RawEntry
  date_time_original : String
  data : String
deriving DecidableEq

/-- Scanned (components/media_location.rs, lines 85-89). -/
structure Scanned where
  number : Nat
  entries : List ScannedMedia
deriving DecidableEq

/-- MediaLocationItems — the per-location scan lifecycle state
(the ScanState of the spec: Unscanned | Scanning | Scanned | Failed). -/
inductive MediaLocationItems
  | unscanned
  | scanning
  | scanned (s : Scanned)
  | error (msg : String)
deriving DecidableEq

/-- MediaLocationInfo (components/media_location.rs, lines 20-29).  The serde
attributes on the struct: name and path are serialized, dropdown_opened and
items carry serde(skip). -/
structure MediaLocationInfo where
  name : String
  path : String
  dropdown_opened : Bool
  items : MediaLocationItems
deriving DecidableEq

/-- MediaLocationInfo::new (components/media_location.rs, lines 188-213; the
middle revision media_location.rs lines 105-130 is textually the same).  The
second canonicalize call on the already-canonical path is unwrapped, so its
failure is a panic (none).  Note: when try_exists reports false the code
returns NotADirectory, and when it reports true the location is accepted
without any is_dir check. -/
def MediaLocationInfo.new (fs : FileSystem) (name location : String) :
    Option (Except MediaPathError MediaLocationInfo) :=
  match fs.canon location with
  | some path =>
    match fs.probe path with
    | Except.ok b =>
      if b then
        match fs.canon path with
        | some canonPath =>
          some (Except.ok
            { name := name, path := canonPath, dropdown_opened := false,
              items := MediaLocationItems.unscanned })
        | none => none
      else
        some (Except.error MediaPathError.notADirectory)
    | Except.error _ => some (Except.error MediaPathError.noPermission)
  | none => some (Except.error MediaPathError.invalidPath)

/-- Body of the per-entry arm of the loop in ScannedMedia::new_batch
(components/media_location.rs, lines 122-137): build one ScannedMedia from a
DirEntry and its JSON record.  data holds the rendered record on debug builds
and the empty string otherwise (the cfg(debug_assertions) split); a record
without a DateTimeOriginal field yields the sentinel string. -/
def ScannedMedia.buildOne (entry : RawEntry) (data : Json)
    (debugAssertions : Bool) : ScannedMedia :=
  let data_string := if debugAssertions then data.raw else ""
  match data.get ("DateTimeOriginal") with
  | some date_time =>
    { entry := entry, data := data_string, date_time_original := date_time }
  | none =>
    { entry := entry, data := data_string,
      date_time_original := "No Original Date/Time" }

/-- The loop of ScannedMedia::new_batch over entries, drawing from the
dates_batch iterator: while the iterator yields Some(data) a record is
pushed; once it is exhausted (None) the remaining entries push nothing. -/
def ScannedMedia.zipBatch :
    List RawEntry → List Json → Bool → List ScannedMedia
  | [], _, _ => []
  | _ :: _, [], _ => []
  | e :: es, j :: js, dbg =>
    ScannedMedia.buildOne e j dbg :: ScannedMedia.zipBatch es js dbg

/-- ScannedMedia::new_batch (components/media_location.rs, lines 110-144).
batchResponse is the result of exif_tool.json_batch over the paths of the
entries; the code calls .unwrap() on it, so an Err response is a panic
(none).  Lock acquisition on the shared ExifTool handle has no data effect
and is not modelled. -/
def ScannedMedia.new_batch (entries : List RawEntry)
    (batchResponse : Except Unit (List Json)) (debugAssertions : Bool) :
    Option (List ScannedMedia) :=
  match batchResponse with
  | Except.error _ => none
  | Except.ok jsons => some (ScannedMedia.zipBatch entries jsons debugAssertions)

/-- A raw directory listing as returned by read_dir: each position is an
io Result of a DirEntry. -/
abbrev DirListing := List (Except Unit RawEntry)

/-- The filtering stage of Scanned::new (components/media_location.rs, lines
151-163): entries that are Err from enumeration map to None (dropped);
for an Ok entry the code calls e.file_type().await.unwrap().is_file(), so an
entry whose file_type probe fails is a panic (none result), an entry whose
type is not file is dropped, and file entries survive in order. -/
def filterFileEntries : DirListing → Option (List RawEntry)
  | [] => some []
  | Except.error _ :: rest => filterFileEntries rest
  | Except.ok e :: rest =>
    match e.file_type with
    | Except.error _ => none
    | Except.ok t =>
      match filterFileEntries rest with
      | some r => some (if t = FSNode.file then e :: r else r)
      | none => none

/-- Scanned::new (components/media_location.rs, lines 147-166).  number is
the length of the raw collected listing (computed before any filtering);
entries is new_batch applied to the surviving file entries. -/
def Scanned.new (dir : DirListing) (batchResponse : Except Unit (List Json))
    (debugAssertions : Bool) : Option Scanned :=
  match filterFileEntries dir with
  | none => none
  | some files =>
    match ScannedMedia.new_batch files batchResponse debugAssertions with
    | none => none
    | some entries => some { number := dir.length, entries := entries }

/-- MediaLocationInfo::scan (components/media_location.rs, lines 288-297;
media_location.rs lines 195-203 has the same branch structure).  readDir is
the response of self.path.read_dir(); on Ok the items field is assigned
Scanned(result), on Err it is assigned Error(message).  The trailing
yield_now has no data effect. -/
def MediaLocationInfo.scan (loc : MediaLocationInfo)
    (readDir : Except String DirListing)
    (batchResponse : Except Unit (List Json)) (debugAssertions : Bool) :
    Option MediaLocationInfo :=
  match readDir with
  | Except.ok dir =>
    match Scanned.new dir batchResponse debugAssertions with
    | some s => some { loc with items := MediaLocationItems.scanned s }
    | none => none
  | Except.error err => some { loc with items := MediaLocationItems.error err }

/-- The sequence of values assigned to self.items during one call of
MediaLocationInfo::scan, in order (none when the call panics before its
assignment).  The body of scan contains exactly one assignment to items:
Scanned(..) on a successful read_dir, Error(..) on a failed one. -/
def scanItemsAssignments (readDir : Except String DirListing)
    (batchResponse : Except Unit (List Json)) (debugAssertions : Bool) :
    Option (List MediaLocationItems) :=
  match readDir with
  | Except.ok dir =>
    match Scanned.new dir batchResponse debugAssertions with
    | some s => some [MediaLocationItems.scanned s]
    | none => none
  | Except.error err => some [MediaLocationItems.error err]

/-- MediaPathList (components/media_location.rs, lines 304-307). -/
structure MediaPathList where
  list : List MediaLocationInfo
deriving DecidableEq

/-- MediaPathList::get_mut (components/media_location.rs, lines 311-313):
&mut self.list[index] — the Vec index operator panics when the index is out
of bounds, hence the Option result (none models the panic); callers write
the mutated element back via List.set. -/
def MediaPathList.get_mut (l : MediaPathList) (index : Nat) :
    Option MediaLocationInfo :=
  l.list[index]?

/-- MediaPathList::push. -/
def MediaPathList.push (l : MediaPathList) (p : MediaLocationInfo) :
    MediaPathList :=
  { list := l.list ++ [p] }

/-- MediaPathList::remove (components/media_location.rs, lines 351-357): in
bounds, the element is removed; out of bounds, the list is untouched and an
error line is printed.  The Bool component records whether the out-of-bounds
report was printed. -/
def MediaPathList.remove (l : MediaPathList) (index : Nat) :
    MediaPathList × Bool :=
  if index < l.list.length then ({ list := l.list.eraseIdx index }, false)
  else (l, true)

/-- MediaPathList::toggle_accordion (lines 359-362):
self.list.get_mut(index).expect(..) — expect panics on none (out of
bounds), modelled by the none result. -/
def MediaPathList.toggle_accordion (l : MediaPathList) (index : Nat) :
    Option MediaPathList :=
  match l.list[index]? with
  | some info =>
    some { list := l.list.set index ({ info with dropdown_opened := !info.dropdown_opened }) }
  | none => none

/-- MediaPathList::expand_accordion (lines 364-366): get_mut panics out of
bounds. -/
def MediaPathList.expand_accordion (l : MediaPathList) (index : Nat) :
    Option MediaPathList :=
  match l.get_mut index with
  | some info => some { list := l.list.set index ({ info with dropdown_opened := true }) }
  | none => none

/-- MediaPathList::collapse_accordion (lines 368-370): get_mut panics out of
bounds. -/
def MediaPathList.collapse_accordion (l : MediaPathList) (index : Nat) :
    Option MediaPathList :=
  match l.get_mut index with
  | some info => some { list := l.list.set index ({ info with dropdown_opened := false }) }
  | none => none

/-- MediaPathList::scan (lines 372-374): get_mut panics out of bounds, then
the selected location is scanned in place. -/
def MediaPathList.scan (l : MediaPathList) (index : Nat)
    (readDir : Except String DirListing)
    (batchResponse : Except Unit (List Json)) (debugAssertions : Bool) :
    Option MediaPathList :=
  match l.get_mut index with
  | some info =>
    match info.scan readDir batchResponse debugAssertions with
    | some info2 => some { list := l.list.set index info2 }
    | none => none
  | none => none

/-- Serde image of one MediaLocationInfo: name and path are serialized (path
through serialize_path_buf as a plain string); dropdown_opened and items
carry serde(skip) and are absent from the serialized form. -/
structure SerializedLocation where
  name : String
  path : String
deriving DecidableEq

/-- Serialization of MediaLocationInfo per its serde derive and attributes. -/
def MediaLocationInfo.serialize (l : MediaLocationInfo) : SerializedLocation :=
  { name := l.name, path := l.path }

/-- Deserialization of MediaLocationInfo: the serde(skip) fields take their
Default values (dropdown_opened = false, items = Unscanned). -/
def MediaLocationInfo.deserialize (s : SerializedLocation) : MediaLocationInfo :=
  { name := s.name, path := s.path, dropdown_opened := false,
    items := MediaLocationItems.unscanned }

/-- Serde image of the application State: the location list plus the two
pending free-text input fields; media_path_error carries serde(skip). -/
structure SerializedState where
  locations : List SerializedLocation
  media_location : String
  media_location_name : String
deriving DecidableEq

/-- Application State (src/main.rs, lines 29-36): the media-location list,
the two pending input fields, and the transient error field with
serde(skip).  Per the evolving sources the list holds the
components/media_location.rs MediaLocationInfo. -/
structure State where
  media_path_list : MediaPathList
  media_location : String
  media_location_name : String
  media_path_error : MediaPathError
deriving DecidableEq

/-- State::save (src/persistence.rs, lines 50-79): the serde image of State
written to state.json.  The debounce sleep, directory creation and file I/O
have no effect on the serialized contents and are not modelled. -/
def State.save (st : State) : SerializedState :=
  { locations := st.media_path_list.list.map MediaLocationInfo.serialize,
    media_location := st.media_location,
    media_location_name := st.media_location_name }

/-- State::load (src/persistence.rs, lines 34-48): deserializes the snapshot;
all serde(skip) fields take their defaults. -/
def State.load (s : SerializedState) : State :=
  { media_path_list := { list := s.locations.map MediaLocationInfo.deserialize },
    media_location := s.media_location,
    media_location_name := s.media_location_name,
    media_path_error := MediaPathError.noError }

namespace MediaInfo

/-- MediaLocationInfo of the oldest revision (src/main.rs, lines 38-42):
name and path only. -/
structure MediaLocationInfo where
  name : String
  path : String
deriving DecidableEq

/-- MediaLocationInfo::new of the oldest revision (src/main.rs, lines
48-74): after canonicalization and a positive existence probe the path must
also be a directory, otherwise NotADirectory; a negative probe yields
PathDoesNotExist. -/
def MediaLocationInfo.new (fs : FileSystem) (name location : String) :
    Except MediaPathError MediaLocationInfo :=
  match fs.canon location with
  | some path =>
    match fs.probe path with
    | Except.ok b =>
      if b then
        if fs.node path = some FSNode.dir then
          Except.ok { name := name, path := path }
        else
          Except.error MediaPathError.notADirectory
      else
        Except.error MediaPathError.pathDoesNotExist
    | Except.error _ => Except.error MediaPathError.noPermission
  | none => Except.error MediaPathError.invalidPath

/-- MediaPathList of the oldest revision (src/main.rs, lines 90-93). -/
structure MediaPathList where
  list : List MediaLocationInfo
deriving DecidableEq

/-- MediaPathList::push (src/main.rs, lines 96-98). -/
def MediaPathList.push (l : MediaPathList) (p : MediaLocationInfo) :
    MediaPathList :=
  { list := l.list ++ [p] }

/-- State of the oldest revision (src/main.rs, lines 29-36). -/
structure State where
  media_path_list : MediaPathList
  media_location : String
  media_location_name : String
  media_path_error : MediaPathError
deriving DecidableEq

/-- The Message::AddMediaPath arm of update (src/main.rs, lines 195-214): on
a successful creation the location is pushed and the pending fields and the
error field are cleared; on a failed creation only the error field is set. -/
def State.addMediaPath (fs : FileSystem) (st : State) : State :=
  match MediaLocationInfo.new fs st.media_location_name st.media_location with
  | Except.ok info =>
    { st with
      media_path_list := st.media_path_list.push info,
      media_location := "",
      media_location_name := "",
      media_path_error := MediaPathError.noError }
  | Except.error err => { st with media_path_error := err }

end MediaInfo

/-! Concrete demonstration inputs used by the evaluation, counterexample and
witness theorems. -/

/-- A filesystem holding exactly one object: a regular file at
/media/photo.jpg (its own canonical path). -/
def fsDemo : FileSystem where
  canon := fun r => if r = "/media/photo.jpg" then some "/media/photo.jpg" else none
  probe := fun p => Except.ok (p = "/media/photo.jpg")
  node := fun p => if p = "/media/photo.jpg" then some FSNode.file else none

/-- A regular-file directory entry. -/
def photoEntry : RawEntry :=
  { file_name := "a.jpg", path := "/media/a.jpg",
    file_type := Except.ok FSNode.file }

/-- A sub-directory entry. -/
def subdirEntry : RawEntry :=
  { file_name := "sub", path := "/media/sub",
    file_type := Except.ok FSNode.dir }

/-- An entry whose file_type probe fails. -/
def brokenEntry : RawEntry :=
  { file_name := "broken", path := "/media/broken",
    file_type := Except.error () }

/-- A metadata record carrying a DateTimeOriginal field. -/
def jsonWithDate : Json :=
  { fields := [("DateTimeOriginal", "2024:01:01 00:00:00")], raw := "rawA" }

/-- A metadata record without a DateTimeOriginal field. -/
def jsonNoDate : Json :=
  { fields := [("FileName", "b.jpg")], raw := "rawB" }

/-- A State of the oldest revision whose pending path does not exist on
fsDemo. -/
def stBad : MediaInfo.State :=
  { media_path_list := { list := [] },
    media_location := "/path/does/not/exist",
    media_location_name := "Bad",
    media_path_error := MediaPathError.noError }

/-- An unscanned demonstration location. -/
def locDemo : MediaLocationInfo :=
  { name := "SD", path := "/media", dropdown_opened := false,
    items := MediaLocationItems.unscanned }

/-! Helper lemmas about the batch pipeline, shared by several claims. -/

theorem buildOne_entry (e : RawEntry) (j : Json) (dbg : Bool) :
    (ScannedMedia.buildOne e j dbg).entry = e := by
  unfold ScannedMedia.buildOne
  cases j.get ("DateTimeOriginal") <;> rfl

theorem zipBatch_length (es : List RawEntry) (js : List Json) (dbg : Bool) :
    (ScannedMedia.zipBatch es js dbg).length = min es.length js.length := by
  induction es generalizing js with
  | nil => cases js <;> simp [ScannedMedia.zipBatch]
  | cons e es ih =>
    cases js with
    | nil => simp [ScannedMedia.zipBatch]
    | cons j js => simp [ScannedMedia.zipBatch, ih, Nat.succ_min_succ]

theorem zipBatch_get (es : List RawEntry) (js : List Json) (dbg : Bool)
    (i : Nat) (h : i < (ScannedMedia.zipBatch es js dbg).length)
    (he : i < es.length) (hj : i < js.length) :
    (ScannedMedia.zipBatch es js dbg).get ⟨i, h⟩
      = ScannedMedia.buildOne (es.get ⟨i, he⟩) (js.get ⟨i, hj⟩) dbg := by
  induction es generalizing js i with
  | nil => exact absurd he (Nat.not_lt_zero i)
  | cons e es ih =>
    cases js with
    | nil => exact absurd hj (Nat.not_lt_zero i)
    | cons j js =>
      cases i with
      | zero => rfl
      | succ i =>
        exact ih js i (Nat.lt_of_succ_lt_succ h) (Nat.lt_of_succ_lt_succ he)
          (Nat.lt_of_succ_lt_succ hj)

/-- C1: at a raw path that canonicalizes to an existing regular file, the
newest MediaLocationInfo::new (components/media_location.rs) succeeds
instead of failing with NotADirectory, because the is_dir check present in
the oldest revision (src/main.rs, second conjunct) was dropped. -/
theorem create_accepts_regular_file_eval :
    MediaLocationInfo.new fsDemo ("SD Card") ("/media/photo.jpg")
        = some (Except.ok { name := "SD Card", path := "/media/photo.jpg",
                            dropdown_opened := false,
                            items := MediaLocationItems.unscanned }) ∧
    MediaInfo.MediaLocationInfo.new fsDemo ("SD Card") ("/media/photo.jpg")
        = Except.error MediaPathError.notADirectory := by
  decide

/-- Counterexample to C2: a successful scan of an empty directory assigns
Scanned directly; the Scanning state never appears among the values assigned
to the items field. -/
theorem scan_never_enters_scanning_cex :
    scanItemsAssignments (Except.ok []) (Except.ok []) true
        = some [MediaLocationItems.scanned { number := 0, entries := [] }] ∧
    MediaLocationItems.scanning ∉
      [MediaLocationItems.scanned { number := 0, entries := [] }] := by
  decide

/-- C2 amended: within one scan the items field receives exactly one
assignment, directly to Scanned(result) on success or Failed(message) on an
enumeration failure; the Scanning state is never entered. -/
theorem scan_single_direct_assignment (readDir : Except String DirListing)
    (resp : Except Unit (List Json)) (dbg : Bool)
    (out : List MediaLocationItems)
    (h : scanItemsAssignments readDir resp dbg = some out) :
    out.length = 1 ∧ MediaLocationItems.scanning ∉ out ∧
      ∀ x ∈ out, (∃ s, x = MediaLocationItems.scanned s) ∨
        (∃ msg, x = MediaLocationItems.error msg) := by
  cases readDir with
  | ok dir =>
    simp only [scanItemsAssignments] at h
    split at h
    · rename_i s hs
      injection h with h2
      subst h2
      refine ⟨rfl, by simp, ?_⟩
      intro x hx
      simp at hx
      subst hx
      exact Or.inl ⟨s, rfl⟩
    · exact Option.noConfusion h
  | error err =>
    simp only [scanItemsAssignments] at h
    injection h with h2
    subst h2
    refine ⟨rfl, by simp, ?_⟩
    intro x hx
    simp at hx
    subst hx
    exact Or.inr ⟨err, rfl⟩

/-- Witness for scan_single_direct_assignment: a failed directory read
assigns the Failed state once. -/
theorem scan_single_direct_assignment_witness :
    scanItemsAssignments (Except.error ("no access")) (Except.ok []) true
        = some [MediaLocationItems.error ("no access")] ∧
    ([MediaLocationItems.error ("no access")].length = 1 ∧
      MediaLocationItems.scanning ∉ [MediaLocationItems.error ("no access")] ∧
      ∀ x ∈ [MediaLocationItems.error ("no access")],
        (∃ s, x = MediaLocationItems.scanned s) ∨
          (∃ msg, x = MediaLocationItems.error msg)) :=
  ⟨by decide, scan_single_direct_assignment (Except.error ("no access"))
    (Except.ok []) true [MediaLocationItems.error ("no access")] (by decide)⟩

/-- Counterexample to C3: a directory holding one regular file and one
sub-directory scans to entry_count 2 while the result holds a single entry,
so entry_count counts sub-directories and differs from the number of entries
in the result. -/
theorem entry_count_cex :
    (Scanned.new [Except.ok photoEntry, Except.ok subdirEntry]
        (Except.ok [jsonWithDate]) true).map
      (fun s => (s.number, s.entries.length)) = some (2, 1) ∧ (2 : Nat) ≠ 1 := by
  decide

/-- C3 amended: when Scanned::new returns a result, entry_count equals the
total number of raw directory entries read (sub-directories, non-file
entries and failed enumeration entries included), not the number of regular
files in the result. -/
theorem scanned_number_counts_all_entries (dir : DirListing)
    (resp : Except Unit (List Json)) (dbg : Bool) (s : Scanned)
    (h : Scanned.new dir resp dbg = some s) : s.number = dir.length := by
  unfold Scanned.new at h
  split at h
  · exact Option.noConfusion h
  · split at h
    · exact Option.noConfusion h
    · injection h with h2
      rw [← h2]

/-- Witness for scanned_number_counts_all_entries at a one-file directory. -/
theorem scanned_number_counts_all_entries_witness :
    Scanned.new [Except.ok photoEntry] (Except.ok [jsonWithDate]) true
        = some { number := 1,
                 entries := [ScannedMedia.buildOne photoEntry jsonWithDate true] } ∧
    ({ number := 1,
       entries := [ScannedMedia.buildOne photoEntry jsonWithDate true] } : Scanned).number
        = ([Except.ok photoEntry] : DirListing).length :=
  ⟨by decide, scanned_number_counts_all_entries [Except.ok photoEntry]
    (Except.ok [jsonWithDate]) true
    { number := 1, entries := [ScannedMedia.buildOne photoEntry jsonWithDate true] }
    (by decide)⟩

/-- Counterexample to C4: toggling the display state at index 0 of the empty
registry panics (Option::expect on a get_mut miss) instead of reporting an
error and leaving the registry unchanged. -/
theorem toggle_out_of_range_cex :
    MediaPathList.toggle_accordion { list := [] } 0 = none := by
  decide

/-- C4 amended: on an out-of-range index, remove reports an error and leaves
the registry unchanged, but toggle_accordion, expand_accordion,
collapse_accordion and scan panic (Option::expect or direct Vec indexing). -/
theorem index_ops_out_of_range (l : MediaPathList) (i : Nat)
    (readDir : Except String DirListing) (resp : Except Unit (List Json))
    (dbg : Bool) (h : l.list.length ≤ i) :
    MediaPathList.remove l i = (l, true) ∧
    MediaPathList.toggle_accordion l i = none ∧
    MediaPathList.expand_accordion l i = none ∧
    MediaPathList.collapse_accordion l i = none ∧
    MediaPathList.scan l i readDir resp dbg = none := by
  have hnone : l.list[i]? = none := List.getElem?_eq_none h
  refine ⟨?_, ?_, ?_, ?_, ?_⟩
  · unfold MediaPathList.remove
    rw [if_neg (Nat.not_lt.mpr h)]
  · unfold MediaPathList.toggle_accordion
    rw [hnone]
  · unfold MediaPathList.expand_accordion MediaPathList.get_mut
    rw [hnone]
  · unfold MediaPathList.collapse_accordion MediaPathList.get_mut
    rw [hnone]
  · unfold MediaPathList.scan MediaPathList.get_mut
    rw [hnone]

/-- Witness for index_ops_out_of_range on the empty registry. -/
theorem index_ops_out_of_range_witness :
    (({ list := [] } : MediaPathList).list.length ≤ 0) ∧
    (MediaPathList.remove { list := [] } 0 = ({ list := [] }, true) ∧
     MediaPathList.toggle_accordion { list := [] } 0 = none ∧
     MediaPathList.expand_accordion { list := [] } 0 = none ∧
     MediaPathList.collapse_accordion { list := [] } 0 = none ∧
     MediaPathList.scan { list := [] } 0 (Except.ok []) (Except.ok []) true = none) :=
  ⟨by decide, index_ops_out_of_range { list := [] } 0 (Except.ok [])
    (Except.ok []) true (by decide)⟩

/-- C5: a failing exiftool batch response panics the scan (unwrap, modelled
as none) at every level of the pipeline, instead of failing the batch with
an ExtractionError surfaced as a ScanFailure that puts the location into the
Failed state. -/
theorem extraction_failure_panics_eval :
    ScannedMedia.new_batch [photoEntry] (Except.error ()) true = none ∧
    Scanned.new [Except.ok photoEntry] (Except.error ()) true = none ∧
    MediaLocationInfo.scan locDemo (Except.ok [Except.ok photoEntry])
        (Except.error ()) true = none := by
  decide

/-- C6: ScannedMedia::new_batch is order-preserving: when the exiftool
response carries one record per input path (the interface contract of the
external tool), the output has exactly one position per input, and the
record at position i is built from the entry at input position i. -/
theorem new_batch_order_preserving (entries : List RawEntry)
    (jsons : List Json) (dbg : Bool) (hlen : jsons.length = entries.length) :
    ∃ out, ScannedMedia.new_batch entries (Except.ok jsons) dbg = some out ∧
      out.length = entries.length ∧
      ∀ (i : Nat) (h : i < out.length) (he : i < entries.length),
        (out.get ⟨i, h⟩).entry = entries.get ⟨i, he⟩ := by
  refine ⟨ScannedMedia.zipBatch entries jsons dbg, rfl, ?_, ?_⟩
  · rw [zipBatch_length, hlen, Nat.min_self]
  · intro i h he
    have hj : i < jsons.length := by rw [hlen]; exact he
    rw [zipBatch_get entries jsons dbg i h he hj, buildOne_entry]

/-- Witness for new_batch_order_preserving at a one-element batch. -/
theorem new_batch_order_preserving_witness :
    ([jsonWithDate] : List Json).length = ([photoEntry] : List RawEntry).length ∧
    (∃ out, ScannedMedia.new_batch [photoEntry] (Except.ok [jsonWithDate]) true
        = some out ∧
      out.length = ([photoEntry] : List RawEntry).length ∧
      ∀ (i : Nat) (h : i < out.length)
          (he : i < ([photoEntry] : List RawEntry).length),
        (out.get ⟨i, h⟩).entry = ([photoEntry] : List RawEntry).get ⟨i, he⟩) :=
  ⟨rfl, new_batch_order_preserving [photoEntry] [jsonWithDate] true rfl⟩

/-- C7: an entry whose file_type probe fails panics the scan (unwrap,
modelled as none) instead of being silently excluded; an entry of a
determinable non-file type is silently excluded as claimed. -/
theorem filetype_probe_failure_panics_eval :
    Scanned.new [Except.ok brokenEntry] (Except.ok []) true = none ∧
    Scanned.new [Except.ok subdirEntry] (Except.ok []) true
        = some { number := 1, entries := [] } := by
  decide

/-- Counterexample to C8: a location saved with the display flag set loads
back with the flag cleared — the flag carries serde(skip), is absent from
the serialized form, and does not round-trip. -/
theorem display_flag_round_trip_cex :
    (State.load (State.save
      { media_path_list :=
          { list := [{ name := "SD", path := "/media",
                       dropdown_opened := true,
                       items := MediaLocationItems.unscanned }] },
        media_location := "", media_location_name := "",
        media_path_error := MediaPathError.noError })).media_path_list.list.map
      MediaLocationInfo.dropdown_opened = [false] ∧
    ([false] : List Bool) ≠ [true] := by
  decide

/-- C8 amended: the serialized snapshot holds each location name and path
plus the two pending input fields; name, path and the pending fields
round-trip through save then load, while the display-expanded flag and the
scan state are not serialized and come back as their defaults (false,
Unscanned). -/
theorem save_excludes_display_flag_round_trip (st : State) :
    State.save st
        = { locations := st.media_path_list.list.map MediaLocationInfo.serialize,
            media_location := st.media_location,
            media_location_name := st.media_location_name } ∧
    State.load (State.save st)
        = { media_path_list :=
              { list := st.media_path_list.list.map
                  (fun loc => { name := loc.name, path := loc.path,
                                dropdown_opened := false,
                                items := MediaLocationItems.unscanned }) },
            media_location := st.media_location,
            media_location_name := st.media_location_name,
            media_path_error := MediaPathError.noError } := by
  refine ⟨rfl, ?_⟩
  simp only [State.load, State.save, List.map_map]
  rfl

/-- Counterexample to C9: creation at a non-existent path fails with
InvalidPath in both embedded revisions (canonicalization fails first), not
with PathDoesNotExist. -/
theorem create_nonexistent_cex :
    MediaInfo.MediaLocationInfo.new fsDemo ("Bad") ("/path/does/not/exist")
        = Except.error MediaPathError.invalidPath ∧
    MediaLocationInfo.new fsDemo ("Bad") ("/path/does/not/exist")
        = some (Except.error MediaPathError.invalidPath) ∧
    MediaPathError.invalidPath ≠ MediaPathError.pathDoesNotExist := by
  decide

/-- C9 amended: for a pending path whose canonicalization fails (as realpath
does for every non-existent path), creation fails with InvalidPath in both
embedded revisions, and the failed AddMediaPath command leaves the registry
length unchanged. -/
theorem create_nonexistent_fails_invalid_path (fs : FileSystem)
    (st : MediaInfo.State) (h : fs.canon st.media_location = none) :
    MediaInfo.MediaLocationInfo.new fs st.media_location_name st.media_location
        = Except.error MediaPathError.invalidPath ∧
    MediaLocationInfo.new fs st.media_location_name st.media_location
        = some (Except.error MediaPathError.invalidPath) ∧
    (MediaInfo.State.addMediaPath fs st).media_path_list.list.length
        = st.media_path_list.list.length := by
  have h1 : MediaInfo.MediaLocationInfo.new fs st.media_location_name
      st.media_location = Except.error MediaPathError.invalidPath := by
    unfold MediaInfo.MediaLocationInfo.new
    rw [h]
  refine ⟨h1, ?_, ?_⟩
  · unfold MediaLocationInfo.new
    rw [h]
  · unfold MediaInfo.State.addMediaPath
    rw [h1]

/-- Witness for create_nonexistent_fails_invalid_path on fsDemo. -/
theorem create_nonexistent_fails_invalid_path_witness :
    fsDemo.canon stBad.media_location = none ∧
    (MediaInfo.MediaLocationInfo.new fsDemo stBad.media_location_name
        stBad.media_location = Except.error MediaPathError.invalidPath ∧
     MediaLocationInfo.new fsDemo stBad.media_location_name stBad.media_location
        = some (Except.error MediaPathError.invalidPath) ∧
     (MediaInfo.State.addMediaPath fsDemo stBad).media_path_list.list.length
        = stBad.media_path_list.list.length) :=
  ⟨by decide, create_nonexistent_fails_invalid_path fsDemo stBad (by decide)⟩

/-- C10: a record lacking the DateTimeOriginal field yields the sentinel
captured_at value, deterministically. -/
theorem new_batch_missing_datetime (entries : List RawEntry)
    (jsons : List Json) (dbg : Bool) (i : Nat)
    (he : i < entries.length) (hj : i < jsons.length)
    (hmiss : (jsons.get ⟨i, hj⟩).get ("DateTimeOriginal") = none) :
    ∃ out, ScannedMedia.new_batch entries (Except.ok jsons) dbg = some out ∧
      ∃ h : i < out.length,
        (out.get ⟨i, h⟩).date_time_original = "No Original Date/Time" := by
  have hlt : i < (ScannedMedia.zipBatch entries jsons dbg).length := by
    rw [zipBatch_length]
    exact Nat.lt_min.mpr ⟨he, hj⟩
  refine ⟨ScannedMedia.zipBatch entries jsons dbg, rfl, hlt, ?_⟩
  rw [zipBatch_get entries jsons dbg i hlt he hj]
  unfold ScannedMedia.buildOne
  rw [hmiss]

/-- Witness for new_batch_missing_datetime on a record without the field. -/
theorem new_batch_missing_datetime_witness :
    (([jsonNoDate] : List Json).get ⟨0, by decide⟩).get ("DateTimeOriginal")
        = none ∧
    (∃ out, ScannedMedia.new_batch [photoEntry] (Except.ok [jsonNoDate]) true
        = some out ∧
      ∃ h : 0 < out.length,
        (out.get ⟨0, h⟩).date_time_original = "No Original Date/Time") :=
  ⟨by decide, new_batch_missing_datetime [photoEntry] [jsonNoDate] true 0
    (by decide) (by decide) (by decide)⟩

end MediaManager
